import Mathlib

/-!
Shallow embedding of `server.py` of the `mcp_af_graph` repository: a small
MCP tool server that proxies read-only GraphQL queries to a remote endpoint.

External collaborators (the network, the `gql` library transport, the GraphQL
parser) are modelled by an `Engine` oracle of pure functions; each observable
network interaction is recorded as an `Event` so that "no network call" and
"delegates exactly once" become statements about the emitted trace.  A raised
Python exception crossing an operation boundary is an `Except.error`; a string
returned to the caller is an `Except.ok`.  The process-wide mutable variable
`graphql_client` is the explicitly threaded state `Option GraphQLClient`.
-/

namespace MCPAF

/-- Lowercasing of a string, as Python `str.lower` on the ASCII range
(applied characterwise). -/
def pyLower (s : String) : String :=
  String.mk (s.data.map Char.toLower)

/-- Whether `hay` starts with `needle` (character lists). -/
def charsStartWith : List Char → List Char → Bool
  | _, [] => true
  | [], _ :: _ => false
  | a :: as, b :: bs => a == b && charsStartWith as bs

/-- Whether `needle` occurs as a contiguous substring of `hay`
(character lists); Python `needle in hay`. -/
def charsContain : List Char → List Char → Bool
  | [], needle => needle.isEmpty
  | a :: t, needle => charsStartWith (a :: t) needle || charsContain t needle

/-- The mutation guardrail of `execute_query`:
Python `"mutation" in query.lower()`. -/
def containsMutation (query : String) : Bool :=
  charsContain (pyLower query).data "mutation".data

/-- Python `repr` of a string value (single-quoted); good enough for the
string-valued mappings this model uses. -/
def pyRepr (s : String) : String := "\x27" ++ s ++ "\x27"

/-- Python `str()` of a dict with string keys and values, e.g.
`\x7b'error': 'boom'\x7d`. -/
def pyStrDict (d : List (String × String)) : String :=
  "\x7b" ++ String.intercalate ", " (d.map (fun kv => pyRepr kv.1 ++ ": " ++ pyRepr kv.2)) ++ "\x7d"

/-- Lexicographic less-or-equal on character lists by code point, the order
Python uses to compare strings. -/
def charListLe : List Char → List Char → Bool
  | [], _ => true
  | _ :: _, [] => false
  | a :: as, b :: bs => if a < b then true else if b < a then false else charListLe as bs

/-- Lexicographic less-or-equal on strings by code point. -/
def strLe (x y : String) : Bool := charListLe x.data y.data

/-- Insert a string into a sorted list (ascending lexicographic order). -/
def insertStr (x : String) : List String → List String
  | [] => [x]
  | y :: ys => if strLe x y then x :: y :: ys else y :: insertStr x ys

/-- Insertion sort on strings: Python `sorted` on a list of strings
(lexicographic by code point). -/
def sortStrs : List String → List String
  | [] => []
  | x :: xs => insertStr x (sortStrs xs)

/-- The introspected schema held by the `gql` `Client`: its type registry
(`type_map`, name to textual rendering of the type) and its own textual
rendering (`str(schema)`). -/
structure Schema where
  type_map : List (String × String)
  text : String
deriving DecidableEq

/-- The `AIOHTTPTransport` constructed in `GraphQLClient.initClient`. -/
structure Transport where
  url : String
  headers : Option (List (String × String))
deriving DecidableEq

/-- The `gql` `Client` object: constructed with a transport; its `schema`
attribute is `None` until a schema fetch succeeds. -/
structure Client where
  transport : Transport
  schema : Option Schema
deriving DecidableEq

/-- The `GraphQLClient` wrapper class of `server.py`: endpoint, optional
headers, and lazily created transport and client. -/
structure GraphQLClient where
  endpoint_url : String
  headers : Option (List (String × String))
  transport : Option Transport
  client : Option Client
deriving DecidableEq

/-- An observable network interaction with the GraphQL Engine collaborator. -/
inductive Event where
  | fetchSchemaEv (url : String) (headers : Option (List (String × String)))
  | executeEv (query : String) (vars : Option (List (String × String)))
deriving DecidableEq

/-- Outcome of delegating one query execution to the Engine. -/
inductive ExecOutcome where
  | ok (result : List (String × String))
  | queryErr (msg : String)
  | exc (msg : String)
deriving DecidableEq

/-- The external GraphQL Engine collaborator (the `gql` library plus the
remote endpoint), as a deterministic oracle: schema fetch by url and headers,
local query parsing (`gql(query)`), and query execution. -/
structure Engine where
  fetchSchema : String → Option (List (String × String)) → Except String Schema
  parse : String → Except String Unit
  exec : String → Option (List (String × String)) → ExecOutcome

/-- `GraphQLClient.initClient`: if no client exists, construct the transport
and the client, then fetch the schema; the transport and client attributes are
assigned before the fetch, so they survive a fetch failure with `schema = None`.
Returns the mutated object, the raised-or-ok outcome, and the network trace. -/
def GraphQLClient.initClient (eng : Engine) (gc : GraphQLClient) :
    GraphQLClient × Except String Unit × List Event :=
  match gc.client with
  | some _ => (gc, Except.ok (), [])
  | none =>
    let tr : Transport := { url := gc.endpoint_url, headers := gc.headers }
    let ev := Event.fetchSchemaEv gc.endpoint_url gc.headers
    match eng.fetchSchema gc.endpoint_url gc.headers with
    | Except.ok s =>
        ({ gc with transport := some tr, client := some { transport := tr, schema := some s } },
         Except.ok (), [ev])
    | Except.error m =>
        ({ gc with transport := some tr, client := some { transport := tr, schema := none } },
         Except.error m, [ev])

/-- `GraphQLClient.execute_query`: lazy initialization outside the try block
(its exceptions propagate), then parse and execute inside the try block:
a `TransportQueryError` becomes `\x7b"error": msg\x7d`, any other exception
becomes `\x7b"error": "Unexpected error: msg"\x7d`. -/
def GraphQLClient.execute_query (eng : Engine) (gc : GraphQLClient)
    (query : String) (vars : Option (List (String × String))) :
    GraphQLClient × Except String (List (String × String)) × List Event :=
  let ini :=
    match gc.client with
    | some _ => (gc, Except.ok (), ([] : List Event))
    | none => gc.initClient eng
  match ini with
  | (gc1, Except.error m, evs1) => (gc1, Except.error m, evs1)
  | (gc1, Except.ok _, evs1) =>
    match eng.parse query with
    | Except.error m =>
        (gc1, Except.ok [("error", "Unexpected error: " ++ m)], evs1)
    | Except.ok _ =>
      match eng.exec query vars with
      | ExecOutcome.ok r =>
          (gc1, Except.ok r, evs1 ++ [Event.executeEv query vars])
      | ExecOutcome.queryErr m =>
          (gc1, Except.ok [("error", m)], evs1 ++ [Event.executeEv query vars])
      | ExecOutcome.exc m =>
          (gc1, Except.ok [("error", "Unexpected error: " ++ m)], evs1 ++ [Event.executeEv query vars])

/-- Python `str(self.client.schema)`: `None` prints as "None". -/
def pyStrOptSchema : Option Schema → String
  | none => "None"
  | some s => s.text

/-- The `AttributeError` raised by reading `.schema` on a `None` client. -/
def attrSchemaMsg : String :=
  "AttributeError: \x27NoneType\x27 object has no attribute \x27schema\x27"

/-- The `AttributeError` raised by `schema.get_type` when `schema` is `None`. -/
def attrGetTypeMsg : String :=
  "AttributeError: \x27NoneType\x27 object has no attribute \x27get_type\x27"

/-- The `AttributeError` raised by `schema.type_map` when `schema` is `None`. -/
def attrTypeMapMsg : String :=
  "AttributeError: \x27NoneType\x27 object has no attribute \x27type_map\x27"

/-- `GraphQLClient.get_schema`: lazy initialization (exceptions propagate),
then `str(self.client.schema)`. -/
def GraphQLClient.get_schema (eng : Engine) (gc : GraphQLClient) :
    GraphQLClient × Except String String × List Event :=
  let ini :=
    match gc.client with
    | some _ => (gc, Except.ok (), ([] : List Event))
    | none => gc.initClient eng
  match ini with
  | (gc1, Except.error m, evs1) => (gc1, Except.error m, evs1)
  | (gc1, Except.ok _, evs1) =>
    match gc1.client with
    | none => (gc1, Except.error attrSchemaMsg, evs1)
    | some c => (gc1, Except.ok (pyStrOptSchema c.schema), evs1)

/-- The guidance string returned by every operation invoked while the
process-wide holder `graphql_client` is still `None`. -/
def noConnMsg : String := "Error: Please set up connection first using setup_connection"

/-- The fixed rejection string of the mutation guardrail. -/
def mutationMsg : String := "Error: Mutations are not allowed"

/-- Headers construction of `setup_connection`: Python truthiness test
`if auth_token`, so `None` and the empty string both yield no headers. -/
def mkHeaders : Option String → Option (List (String × String))
  | none => none
  | some t => if t = "" then none else some [("Authorization", "Bearer " ++ t)]

/-- The `setup_connection` tool: build headers, assign the global holder to a
freshly constructed `GraphQLClient` (this assignment happens before and
regardless of the outcome of `initialize`), then initialize; every exception is
caught and rendered as a failure string. -/
def setup_connection (eng : Engine) (_st : Option GraphQLClient)
    (endpoint_url : String) (auth_token : Option String) :
    Option GraphQLClient × String × List Event :=
  let headers := mkHeaders auth_token
  let gc0 : GraphQLClient :=
    { endpoint_url := endpoint_url, headers := headers, transport := none, client := none }
  match gc0.initClient eng with
  | (gc1, Except.ok _, evs) => (some gc1, "Successfully connected to GraphQL endpoint", evs)
  | (gc1, Except.error m, evs) => (some gc1, "Failed to connect: " ++ m, evs)

/-- The `execute_query` tool: guidance string when no holder exists, the
mutation guardrail, then delegation to `GraphQLClient.execute_query` with the
result dict rendered by `str()`. -/
def execute_query (eng : Engine) (st : Option GraphQLClient)
    (query : String) (vars : Option (List (String × String))) :
    Option GraphQLClient × Except String String × List Event :=
  match st with
  | none => (none, Except.ok noConnMsg, [])
  | some gc =>
    if containsMutation query then
      (some gc, Except.ok mutationMsg, [])
    else
      match gc.execute_query eng query vars with
      | (gc1, Except.ok d, evs) => (some gc1, Except.ok (pyStrDict d), evs)
      | (gc1, Except.error m, evs) => (some gc1, Except.error m, evs)

/-- The `get_schema` resource: guidance string when no holder exists, else
delegation to `GraphQLClient.get_schema` (whose exceptions propagate). -/
def get_schema (eng : Engine) (st : Option GraphQLClient) :
    Option GraphQLClient × Except String String × List Event :=
  match st with
  | none => (none, Except.ok noConnMsg, [])
  | some gc =>
    match gc.get_schema eng with
    | (gc1, r, evs) => (some gc1, r, evs)

/-- The `get_type_info` tool: guidance string when no holder exists, else an
unconditional `initialize` (exceptions propagate), then a lookup of the type
name in `schema.type_map`; a missing type yields a "not found" string. -/
def get_type_info (eng : Engine) (st : Option GraphQLClient) (type_name : String) :
    Option GraphQLClient × Except String String × List Event :=
  match st with
  | none => (none, Except.ok noConnMsg, [])
  | some gc =>
    match gc.initClient eng with
    | (gc1, Except.error m, evs) => (some gc1, Except.error m, evs)
    | (gc1, Except.ok _, evs) =>
      match gc1.client with
      | none => (some gc1, Except.error attrSchemaMsg, evs)
      | some c =>
        match c.schema with
        | none => (some gc1, Except.error attrGetTypeMsg, evs)
        | some s =>
          match s.type_map.lookup type_name with
          | none =>
              (some gc1, Except.ok ("Type \x27" ++ type_name ++ "\x27 not found in schema"), evs)
          | some txt => (some gc1, Except.ok txt, evs)

/-- The `list_types` tool: guidance string when no holder exists, else an
unconditional `initialize` (exceptions propagate), then the sorted,
newline-joined keys of `schema.type_map`. -/
def list_types (eng : Engine) (st : Option GraphQLClient) :
    Option GraphQLClient × Except String String × List Event :=
  match st with
  | none => (none, Except.ok noConnMsg, [])
  | some gc =>
    match gc.initClient eng with
    | (gc1, Except.error m, evs) => (some gc1, Except.error m, evs)
    | (gc1, Except.ok _, evs) =>
      match gc1.client with
      | none => (some gc1, Except.error attrSchemaMsg, evs)
      | some c =>
        match c.schema with
        | none => (some gc1, Except.error attrTypeMapMsg, evs)
        | some s =>
            (some gc1,
             Except.ok (String.intercalate "\n" (sortStrs (s.type_map.map Prod.fst))), evs)

/-- One invocation by the Tool Host of any of the five operations. -/
inductive Op where
  | setupOp (url : String) (token : Option String)
  | execOp (query : String) (vars : Option (List (String × String)))
  | schemaOp
  | typeInfoOp (name : String)
  | listTypesOp

/-- Dispatch one operation against the process-wide holder. `setup_connection`
never raises, so its result string is wrapped in `Except.ok`. -/
def step (eng : Engine) (st : Option GraphQLClient) :
    Op → Option GraphQLClient × Except String String × List Event
  | Op.setupOp url tok =>
      match setup_connection eng st url tok with
      | (st1, r, evs) => (st1, Except.ok r, evs)
  | Op.execOp q v => execute_query eng st q v
  | Op.schemaOp => get_schema eng st
  | Op.typeInfoOp n => get_type_info eng st n
  | Op.listTypesOp => list_types eng st

/-- Run a sequence of operations from a starting holder state. -/
def run (eng : Engine) : Option GraphQLClient → List Op → Option GraphQLClient
  | st, [] => st
  | st, op :: ops => run eng (step eng st op).1 ops

/-- A demo schema whose type registry holds Query, Mutation and User. -/
def schDemo : Schema :=
  { type_map := [("User", "type User"), ("Query", "type Query"), ("Mutation", "type Mutation")],
    text := "schema" }

/-- A demo transport. -/
def trDemo : Transport := { url := "http://demo", headers := none }

/-- A connected holder, as produced by a successful `setup_connection`. -/
def gcConn : GraphQLClient :=
  { endpoint_url := "http://demo", headers := none,
    transport := some trDemo,
    client := some { transport := trDemo, schema := some schDemo } }

/-- A demo engine whose operations all succeed. -/
def engDemo : Engine :=
  { fetchSchema := fun _ _ => Except.ok schDemo,
    parse := fun _ => Except.ok (),
    exec := fun _ _ => ExecOutcome.ok [("data", "1")] }

/-- A demo engine whose network operations all fail. -/
def engFail : Engine :=
  { fetchSchema := fun _ _ => Except.error "boom",
    parse := fun _ => Except.ok (),
    exec := fun _ _ => ExecOutcome.exc "down" }

/-- A demo engine whose successful schema fetch yields a schema whose textual
rendering happens to coincide with the not-connected guidance string. -/
def engGuid : Engine :=
  { fetchSchema := fun _ _ =>
      Except.ok { type_map := [], text := "Error: Please set up connection first using setup_connection" },
    parse := fun _ => Except.ok (),
    exec := fun _ _ => ExecOutcome.ok [] }

/-- A list starting with `needle` passes `charsStartWith`. -/
theorem charsStartWith_append (needle rest : List Char) :
    charsStartWith (needle ++ rest) needle = true := by
  induction needle with
  | nil => cases rest <;> rfl
  | cons c cs ih => simp [charsStartWith, ih]

/-- A list that starts with `needle` contains it. -/
theorem charsContain_of_sw (hay needle : List Char)
    (h : charsStartWith hay needle = true) : charsContain hay needle = true := by
  cases hay with
  | nil =>
    cases needle with
    | nil => rfl
    | cons b bs => simp [charsStartWith] at h
  | cons a t => simp [charsContain, h]

/-- Containment is stable under prepending. -/
theorem charsContain_append_left (pre hay needle : List Char)
    (h : charsContain hay needle = true) : charsContain (pre ++ hay) needle = true := by
  induction pre with
  | nil => simpa using h
  | cons p ps ih => simp [charsContain, ih]

/-- Any query with a middle segment that lowercases to "mutation" trips the
guardrail, whatever surrounds it. -/
theorem containsMutation_middle (a m b : String) (hm : pyLower m = "mutation") :
    containsMutation (a ++ m ++ b) = true := by
  have hd : (pyLower (a ++ m ++ b)).data =
      (pyLower a).data ++ ((pyLower m).data ++ (pyLower b).data) := by
    simp [pyLower, String.data_append, List.map_append]
  rw [containsMutation, hd, hm]
  exact charsContain_append_left _ _ _
    (charsContain_of_sw _ _ (charsStartWith_append "mutation".data (pyLower b).data))

/-- C1: with a connection holder present, any query text containing the
substring "mutation" in any character case and at any position makes
`execute_query` return the fixed rejection string, with an empty network
trace (no delegation to the Engine). -/
theorem exec_query_rejects_mutation (eng : Engine) (gc : GraphQLClient)
    (a m b : String) (v : Option (List (String × String)))
    (hm : pyLower m = "mutation") :
    execute_query eng (some gc) (a ++ m ++ b) v =
      (some gc, Except.ok mutationMsg, []) := by
  have h := containsMutation_middle a m b hm
  simp [execute_query, h]

/-- Witness for C1 at a concrete mixed-case query. -/
theorem exec_query_rejects_mutation_witness :
    execute_query engDemo (some gcConn) ("query " ++ "MuTaTIOn" ++ " \x7b x \x7d") none =
      (some gcConn, Except.ok mutationMsg, []) :=
  exec_query_rejects_mutation engDemo gcConn "query " "MuTaTIOn" " \x7b x \x7d" none (by decide)

/-- C2 (amended): while the holder is still empty, i.e. before any
`setup_connection` call of any outcome, each of the four non-setup operations
returns exactly the guidance string, leaves the holder empty, performs no
network call and raises nothing. -/
theorem no_connection_guidance (eng : Engine) (q n : String)
    (v : Option (List (String × String))) :
    execute_query eng none q v = (none, Except.ok noConnMsg, []) ∧
    get_schema eng none = (none, Except.ok noConnMsg, []) ∧
    get_type_info eng none n = (none, Except.ok noConnMsg, []) ∧
    list_types eng none = (none, Except.ok noConnMsg, []) :=
  ⟨rfl, rfl, rfl, rfl⟩

/-- Counterexample to C2 as stated: after a `setup_connection` call that
failed (so no successful setup has ever completed), `list_types` does not
return the guidance string; it raises an `AttributeError`. -/
theorem no_connection_guidance_cex :
    (setup_connection engFail none "http://x" none).2.1 = "Failed to connect: boom" ∧
    (list_types engFail (setup_connection engFail none "http://x" none).1).2.1 =
      Except.error attrTypeMapMsg := by
  exact ⟨rfl, rfl⟩

/-- C6: lazy initialization is idempotent: whatever a first `initialize` call
did (fresh construction, failure, or nothing), a second call without an
intervening `setup_connection` leaves the object unchanged, fetches no schema
(empty trace) and constructs no client. -/
theorem initClient_idempotent (eng : Engine) (gc : GraphQLClient) :
    ((gc.initClient eng).1).initClient eng = ((gc.initClient eng).1, Except.ok (), []) := by
  cases hcl : gc.client with
  | some c => simp [GraphQLClient.initClient, hcl]
  | none =>
    cases hf : eng.fetchSchema gc.endpoint_url gc.headers <;>
      simp [GraphQLClient.initClient, hcl, hf]

/-- C8: `setup_connection` with a provided (non-empty) auth token builds the
headers mapping with the bearer authorization entry; with no token it builds
no headers. -/
theorem mkHeaders_spec :
    (∀ t : String, t ≠ "" →
        mkHeaders (some t) = some [("Authorization", "Bearer " ++ t)]) ∧
    mkHeaders none = none := by
  constructor
  · intro t ht
    simp [mkHeaders, ht]
  · rfl

/-- Witness for C8 at a concrete token. -/
theorem mkHeaders_spec_witness :
    mkHeaders (some "tok") = some [("Authorization", "Bearer tok")] ∧
    mkHeaders none = none :=
  ⟨mkHeaders_spec.1 "tok" (by decide), mkHeaders_spec.2⟩

/-- C10: an empty-string auth token is falsy in Python, so setup with it
behaves exactly as setup with no token: no Authorization header. -/
theorem setup_empty_token_as_none (eng : Engine) (st : Option GraphQLClient) (url : String) :
    setup_connection eng st url (some "") = setup_connection eng st url none ∧
    mkHeaders (some "") = none :=
  ⟨rfl, rfl⟩

/-- Counterexample to C3 as stated: starting from a connected holder, a
`setup_connection` call whose initialization fails does not leave the state as
it was: the holder now references the freshly constructed client for the new
endpoint, whose inner `gql` client object exists but carries no schema. -/
theorem setup_failure_cex :
    (setup_connection engFail (some gcConn) "http://new" none).1 =
      some { endpoint_url := "http://new", headers := none,
             transport := some { url := "http://new", headers := none },
             client := some { transport := { url := "http://new", headers := none },
                              schema := none } } ∧
    (setup_connection engFail (some gcConn) "http://new" none).1 ≠ some gcConn :=
  ⟨rfl, by decide⟩

/-- C3 (amended): a `setup_connection` call whose schema fetch fails replaces
the holder, before the failure, with the newly constructed client for the
requested endpoint; that object retains an inner client whose schema is
unfetched, and the failure is reported as a string. -/
theorem setup_failure_state (eng : Engine) (st : Option GraphQLClient)
    (url : String) (tok : Option String) (m : String)
    (hf : eng.fetchSchema url (mkHeaders tok) = Except.error m) :
    setup_connection eng st url tok =
      (some { endpoint_url := url, headers := mkHeaders tok,
              transport := some { url := url, headers := mkHeaders tok },
              client := some { transport := { url := url, headers := mkHeaders tok },
                               schema := none } },
       "Failed to connect: " ++ m,
       [Event.fetchSchemaEv url (mkHeaders tok)]) := by
  simp [setup_connection, GraphQLClient.initClient, hf]

/-- Witness for the amended C3 at a concrete failing engine. -/
theorem setup_failure_state_witness :
    setup_connection engFail (some gcConn) "http://new" none =
      (some { endpoint_url := "http://new", headers := none,
              transport := some { url := "http://new", headers := none },
              client := some { transport := { url := "http://new", headers := none },
                               schema := none } },
       "Failed to connect: boom",
       [Event.fetchSchemaEv "http://new" none]) :=
  setup_failure_state engFail (some gcConn) "http://new" none "boom" rfl

/-- The holder produced by `setup_connection` is the object `initialize`
mutated, whatever the outcome. -/
theorem setup_result_eq (eng : Engine) (st : Option GraphQLClient)
    (url : String) (tok : Option String) :
    (setup_connection eng st url tok).1 =
      some (GraphQLClient.initClient eng
        { endpoint_url := url, headers := mkHeaders tok,
          transport := none, client := none }).1 := by
  simp only [setup_connection]
  split <;> simp_all

/-- A freshly constructed holder always carries an inner client after
`initialize`, even when the schema fetch failed. -/
theorem initClient_fresh (eng : Engine) (url : String)
    (hs : Option (List (String × String))) :
    ((GraphQLClient.initClient eng
        { endpoint_url := url, headers := hs,
          transport := none, client := none }).1).client.isSome := by
  cases hf : eng.fetchSchema url hs <;> simp [GraphQLClient.initClient, hf]

/-- C4: every holder that `setup_connection` can produce carries an inner
client, and for such holders a non-guardrailed `execute_query` never raises
across the operation boundary: a parse failure or an unexpected execution
failure is rendered as the Unexpected-error dict, a query-level failure
reported by the Engine as the plain error dict, and a success as the result
dict. -/
theorem exec_query_no_raise :
    (∀ (eng : Engine) (st : Option GraphQLClient) (url : String)
        (tok : Option String) (gc : GraphQLClient),
        (setup_connection eng st url tok).1 = some gc → gc.client.isSome) ∧
    (∀ (eng : Engine) (gc : GraphQLClient) (c : Client) (q : String)
        (v : Option (List (String × String))),
        gc.client = some c → containsMutation q = false →
        (execute_query eng (some gc) q v).2.1 =
          Except.ok (match eng.parse q with
            | Except.error m => pyStrDict [("error", "Unexpected error: " ++ m)]
            | Except.ok _ =>
              match eng.exec q v with
              | ExecOutcome.ok d => pyStrDict d
              | ExecOutcome.queryErr m => pyStrDict [("error", m)]
              | ExecOutcome.exc m => pyStrDict [("error", "Unexpected error: " ++ m)])) := by
  constructor
  · intro eng st url tok gc h
    rw [setup_result_eq] at h
    injection h with h2
    rw [← h2]
    exact initClient_fresh eng url (mkHeaders tok)
  · intro eng gc c q v hc hm
    cases hp : eng.parse q with
    | error m => simp [execute_query, GraphQLClient.execute_query, hc, hm, hp]
    | ok u =>
      cases he : eng.exec q v <;>
        simp [execute_query, GraphQLClient.execute_query, hc, hm, hp, he]

/-- Witness for C4: a concrete reachable holder, and a concrete failing
execution rendered as the Unexpected-error dict rather than raised. -/
theorem exec_query_no_raise_witness :
    gcConn.client.isSome ∧
    (execute_query engFail (some gcConn) "query x" none).2.1 =
      Except.ok (pyStrDict [("error", "Unexpected error: down")]) :=
  ⟨exec_query_no_raise.1 engDemo none "http://demo" none gcConn rfl,
   exec_query_no_raise.2 engFail gcConn { transport := trDemo, schema := some schDemo }
     "query x" none rfl (by decide)⟩

/-- C5: with an initialized holder, a non-guardrailed query that the Engine
parses and executes successfully is delegated exactly once, with the query
text and the variables mapping passed through unmodified, and the result
mapping is returned rendered as text; the holder is unchanged. -/
theorem exec_query_delegates_once (eng : Engine) (gc : GraphQLClient) (c : Client)
    (q : String) (v : Option (List (String × String))) (d : List (String × String))
    (hc : gc.client = some c) (hm : containsMutation q = false)
    (hp : eng.parse q = Except.ok ()) (he : eng.exec q v = ExecOutcome.ok d) :
    execute_query eng (some gc) q v =
      (some gc, Except.ok (pyStrDict d), [Event.executeEv q v]) := by
  simp [execute_query, GraphQLClient.execute_query, hc, hm, hp, he]

/-- Witness for C5 at a concrete query, variables and engine. -/
theorem exec_query_delegates_once_witness :
    execute_query engDemo (some gcConn) "query x" (some [("id", "7")]) =
      (some gcConn, Except.ok (pyStrDict [("data", "1")]),
       [Event.executeEv "query x" (some [("id", "7")])]) :=
  exec_query_delegates_once engDemo gcConn { transport := trDemo, schema := some schDemo }
    "query x" (some [("id", "7")]) [("data", "1")] rfl (by decide) rfl rfl

/-- C7: with a holder whose schema is fetched, `list_types` returns the keys
of the schema type registry, sorted lexicographically and newline-joined,
with no further network call. -/
theorem list_types_sorted (eng : Engine) (gc : GraphQLClient) (tr0 : Transport) (s : Schema)
    (hc : gc.client = some { transport := tr0, schema := some s }) :
    list_types eng (some gc) =
      (some gc,
       Except.ok (String.intercalate "\n" (sortStrs (s.type_map.map Prod.fst))), []) := by
  simp [list_types, GraphQLClient.initClient, hc]

/-- Witness for C7: the schema with types Query, Mutation and User yields
exactly the newline-joined sorted listing. -/
theorem list_types_sorted_witness :
    list_types engDemo (some gcConn) =
      (some gcConn, Except.ok "Mutation\nQuery\nUser", []) := by
  have h := list_types_sorted engDemo gcConn trDemo schDemo rfl
  have hs : String.intercalate "\n" (sortStrs (schDemo.type_map.map Prod.fst)) =
      "Mutation\nQuery\nUser" := by decide
  rw [h, hs]

/-- A rendered result dict starts with a brace, so it can never coincide with
the guidance string. -/
theorem pyStrDict_ne_noConn (d : List (String × String)) : pyStrDict d ≠ noConnMsg := by
  intro h
  have hd := congrArg String.data h
  rw [pyStrDict] at hd
  simp only [String.data_append] at hd
  simp only [List.cons_append, List.nil_append] at hd
  rw [show noConnMsg.data =
      'E' :: "rror: Please set up connection first using setup_connection".data from rfl] at hd
  injection hd with h1 _
  exact absurd h1 (by decide)

/-- `execute_query` keeps the holder non-empty. -/
theorem exec_tool_pres (eng : Engine) (gc : GraphQLClient) (q : String)
    (v : Option (List (String × String))) :
    ((execute_query eng (some gc) q v).1).isSome := by
  simp only [execute_query]
  split
  · rfl
  · split <;> rfl

/-- `get_schema` keeps the holder non-empty. -/
theorem schema_tool_pres (eng : Engine) (gc : GraphQLClient) :
    ((get_schema eng (some gc)).1).isSome := rfl

/-- `get_type_info` keeps the holder non-empty. -/
theorem typeinfo_tool_pres (eng : Engine) (gc : GraphQLClient) (n : String) :
    ((get_type_info eng (some gc) n).1).isSome := by
  simp only [get_type_info]
  split
  · rfl
  · split
    · rfl
    · split
      · rfl
      · split <;> rfl

/-- `list_types` keeps the holder non-empty. -/
theorem listtypes_tool_pres (eng : Engine) (gc : GraphQLClient) :
    ((list_types eng (some gc)).1).isSome := by
  simp only [list_types]
  split
  · rfl
  · split
    · rfl
    · split <;> rfl

/-- A `setup_connection` step always leaves the holder non-empty. -/
theorem setup_tool_pres (eng : Engine) (st : Option GraphQLClient) (url : String)
    (tok : Option String) : ((step eng st (Op.setupOp url tok)).1).isSome := by
  have h : (step eng st (Op.setupOp url tok)).1 = (setup_connection eng st url tok).1 := rfl
  rw [h, setup_result_eq]
  rfl

/-- Every step preserves a non-empty holder. -/
theorem step_pres (eng : Engine) (st : Option GraphQLClient) (op : Op)
    (h : st.isSome) : ((step eng st op).1).isSome := by
  cases st with
  | none => exact Bool.noConfusion h
  | some gc =>
    cases op with
    | setupOp url tok => exact setup_tool_pres eng (some gc) url tok
    | execOp q v => exact exec_tool_pres eng gc q v
    | schemaOp => exact schema_tool_pres eng gc
    | typeInfoOp n => exact typeinfo_tool_pres eng gc n
    | listTypesOp => exact listtypes_tool_pres eng gc

/-- Running any operation sequence preserves a non-empty holder. -/
theorem run_pres (eng : Engine) (ops : List Op) :
    ∀ st : Option GraphQLClient, st.isSome → (run eng st ops).isSome := by
  induction ops with
  | nil => intro st h; exact h
  | cons op rest ih => intro st h; exact ih _ (step_pres eng st op h)

/-- After any trace containing a `setup_connection` call, the holder is
non-empty. -/
theorem run_after_setup (eng : Engine) (pre : List Op) :
    ∀ (st : Option GraphQLClient) (post : List Op) (url : String) (tok : Option String),
      (run eng st (pre ++ Op.setupOp url tok :: post)).isSome := by
  induction pre with
  | nil =>
    intro st post url tok
    exact run_pres eng post _ (setup_tool_pres eng st url tok)
  | cons op ops ih =>
    intro st post url tok
    exact ih _ post url tok

/-- Counterexample to C9 as stated: the first `setup_connection` of the
process succeeds, yet a later `get_schema` returns exactly the not-connected
guidance string, because it relays the Engine-supplied schema rendering. -/
theorem holder_persistent_cex :
    (setup_connection engGuid none "http://x" none).2.1 =
      "Successfully connected to GraphQL endpoint" ∧
    (get_schema engGuid (setup_connection engGuid none "http://x" none).1).2.1 =
      Except.ok noConnMsg :=
  ⟨rfl, rfl⟩

/-- The "Type ... not found" message never coincides with the guidance
string. -/
theorem typeNotFound_ne_noConn (n : String) :
    ("Type \x27" ++ n ++ "\x27 not found in schema") ≠ noConnMsg := by
  intro h
  have hd := congrArg String.data h
  simp only [String.data_append] at hd
  simp only [List.cons_append, List.nil_append] at hd
  rw [show noConnMsg.data =
      'E' :: "rror: Please set up connection first using setup_connection".data from rfl] at hd
  injection hd with h1 _
  exact absurd h1 (by decide)

/-- With a non-empty holder, `get_schema` either raises or returns the
rendering of the schema held by the resulting holder's inner client. -/
theorem getSchema_shape (eng : Engine) (gc : GraphQLClient) :
    (∃ m, (get_schema eng (some gc)).2.1 = Except.error m) ∨
    (∃ gc1 c, (get_schema eng (some gc)).1 = some gc1 ∧ gc1.client = some c ∧
      (get_schema eng (some gc)).2.1 = Except.ok (pyStrOptSchema c.schema)) := by
  cases hcl : gc.client with
  | some c =>
    right
    exact ⟨gc, c, by simp [get_schema, GraphQLClient.get_schema, hcl], hcl,
      by simp [get_schema, GraphQLClient.get_schema, hcl]⟩
  | none =>
    cases hf : eng.fetchSchema gc.endpoint_url gc.headers with
    | ok s =>
      right
      refine ⟨{ gc with
          transport := some { url := gc.endpoint_url, headers := gc.headers },
          client := some { transport := { url := gc.endpoint_url, headers := gc.headers },
                           schema := some s } },
        { transport := { url := gc.endpoint_url, headers := gc.headers },
          schema := some s }, ?_, rfl, ?_⟩ <;>
        simp [get_schema, GraphQLClient.get_schema, GraphQLClient.initClient, hcl, hf]
    | error m =>
      left
      exact ⟨m, by simp [get_schema, GraphQLClient.get_schema, GraphQLClient.initClient, hcl, hf]⟩

/-- With a non-empty holder, `get_type_info` either raises, or returns the
gateway's own "not found" message, or relays a type rendering stored in the
type registry of the schema held by the resulting holder's inner client. -/
theorem getTypeInfo_shape (eng : Engine) (gc : GraphQLClient) (n : String) :
    (∃ m, (get_type_info eng (some gc) n).2.1 = Except.error m) ∨
    (get_type_info eng (some gc) n).2.1 =
      Except.ok ("Type \x27" ++ n ++ "\x27 not found in schema") ∨
    (∃ gc1 c s txt, (get_type_info eng (some gc) n).1 = some gc1 ∧
      gc1.client = some c ∧ c.schema = some s ∧ s.type_map.lookup n = some txt ∧
      (get_type_info eng (some gc) n).2.1 = Except.ok txt) := by
  cases hcl : gc.client with
  | some c =>
    cases hs : c.schema with
    | none =>
      left
      exact ⟨attrGetTypeMsg, by simp [get_type_info, GraphQLClient.initClient, hcl, hs]⟩
    | some s =>
      cases hlk : s.type_map.lookup n with
      | none =>
        right; left
        simp [get_type_info, GraphQLClient.initClient, hcl, hs, hlk]
      | some txt =>
        right; right
        exact ⟨gc, c, s, txt,
          by simp [get_type_info, GraphQLClient.initClient, hcl, hs, hlk], hcl, hs, hlk,
          by simp [get_type_info, GraphQLClient.initClient, hcl, hs, hlk]⟩
  | none =>
    cases hf : eng.fetchSchema gc.endpoint_url gc.headers with
    | error m =>
      left
      exact ⟨m, by simp [get_type_info, GraphQLClient.initClient, hcl, hf]⟩
    | ok s =>
      cases hlk : s.type_map.lookup n with
      | none =>
        right; left
        simp [get_type_info, GraphQLClient.initClient, hcl, hf, hlk]
      | some txt =>
        right; right
        exact ⟨{ gc with
            transport := some { url := gc.endpoint_url, headers := gc.headers },
            client := some { transport := { url := gc.endpoint_url, headers := gc.headers },
                             schema := some s } },
          { transport := { url := gc.endpoint_url, headers := gc.headers },
            schema := some s }, s, txt,
          by simp [get_type_info, GraphQLClient.initClient, hcl, hf, hlk], rfl, rfl, hlk,
          by simp [get_type_info, GraphQLClient.initClient, hcl, hf, hlk]⟩

/-- With a non-empty holder, `list_types` either raises or returns the
newline-joined sorted keys of the type registry of the schema held by the
resulting holder's inner client. -/
theorem listTypes_shape (eng : Engine) (gc : GraphQLClient) :
    (∃ m, (list_types eng (some gc)).2.1 = Except.error m) ∨
    (∃ gc1 c s, (list_types eng (some gc)).1 = some gc1 ∧
      gc1.client = some c ∧ c.schema = some s ∧
      (list_types eng (some gc)).2.1 =
        Except.ok (String.intercalate "\n" (sortStrs (s.type_map.map Prod.fst)))) := by
  cases hcl : gc.client with
  | some c =>
    cases hs : c.schema with
    | none =>
      left
      exact ⟨attrTypeMapMsg, by simp [list_types, GraphQLClient.initClient, hcl, hs]⟩
    | some s =>
      right
      exact ⟨gc, c, s, by simp [list_types, GraphQLClient.initClient, hcl, hs], hcl, hs,
        by simp [list_types, GraphQLClient.initClient, hcl, hs]⟩
  | none =>
    cases hf : eng.fetchSchema gc.endpoint_url gc.headers with
    | error m =>
      left
      exact ⟨m, by simp [list_types, GraphQLClient.initClient, hcl, hf]⟩
    | ok s =>
      right
      exact ⟨{ gc with
          transport := some { url := gc.endpoint_url, headers := gc.headers },
          client := some { transport := { url := gc.endpoint_url, headers := gc.headers },
                           schema := some s } },
        { transport := { url := gc.endpoint_url, headers := gc.headers },
          schema := some s }, s,
        by simp [list_types, GraphQLClient.initClient, hcl, hf], rfl, rfl,
        by simp [list_types, GraphQLClient.initClient, hcl, hf]⟩

/-- C9 (amended): once `setup_connection` has been invoked at least once,
whatever its outcome, the process-wide holder is non-empty and no operation
ever resets it to empty. The guidance string is returned as an operation's
own not-connected message only while the holder is empty: with a non-empty
holder, `execute_query` can never return it, and `get_schema`,
`get_type_info` and `list_types` either raise or relay Engine-supplied
schema renderings, type renderings or type names — only such relayed text
can coincide with the guidance string, the gateway's own "not found"
message never does. -/
theorem holder_persistent :
    (∀ (eng : Engine) (st : Option GraphQLClient) (op : Op),
        st.isSome → ((step eng st op).1).isSome) ∧
    (∀ (eng : Engine) (st : Option GraphQLClient) (pre post : List Op)
        (url : String) (tok : Option String),
        (run eng st (pre ++ Op.setupOp url tok :: post)).isSome) ∧
    (∀ (eng : Engine) (gc : GraphQLClient) (q : String)
        (v : Option (List (String × String))),
        (execute_query eng (some gc) q v).2.1 ≠ Except.ok noConnMsg) ∧
    (∀ (eng : Engine) (gc : GraphQLClient),
        (∃ m, (get_schema eng (some gc)).2.1 = Except.error m) ∨
        (∃ gc1 c, (get_schema eng (some gc)).1 = some gc1 ∧ gc1.client = some c ∧
          (get_schema eng (some gc)).2.1 = Except.ok (pyStrOptSchema c.schema))) ∧
    (∀ (eng : Engine) (gc : GraphQLClient) (n : String),
        (∃ m, (get_type_info eng (some gc) n).2.1 = Except.error m) ∨
        (get_type_info eng (some gc) n).2.1 =
          Except.ok ("Type \x27" ++ n ++ "\x27 not found in schema") ∨
        (∃ gc1 c s txt, (get_type_info eng (some gc) n).1 = some gc1 ∧
          gc1.client = some c ∧ c.schema = some s ∧ s.type_map.lookup n = some txt ∧
          (get_type_info eng (some gc) n).2.1 = Except.ok txt)) ∧
    (∀ (eng : Engine) (gc : GraphQLClient),
        (∃ m, (list_types eng (some gc)).2.1 = Except.error m) ∨
        (∃ gc1 c s, (list_types eng (some gc)).1 = some gc1 ∧
          gc1.client = some c ∧ c.schema = some s ∧
          (list_types eng (some gc)).2.1 =
            Except.ok (String.intercalate "\n" (sortStrs (s.type_map.map Prod.fst))))) ∧
    (∀ n : String, ("Type \x27" ++ n ++ "\x27 not found in schema") ≠ noConnMsg) := by
  refine ⟨step_pres, ?_, ?_, getSchema_shape, getTypeInfo_shape, listTypes_shape,
    typeNotFound_ne_noConn⟩
  · intro eng st pre post url tok
    exact run_after_setup eng pre st post url tok
  · intro eng gc q v
    simp only [execute_query]
    split
    · intro h
      exact absurd (Except.ok.inj h) (by decide)
    · split <;> intro h
      · exact pyStrDict_ne_noConn _ (Except.ok.inj h)
      · exact Except.noConfusion h

/-- Witness for the amended C9 at a concrete engine, trace and query. -/
theorem holder_persistent_witness :
    ((step engDemo (some gcConn) Op.listTypesOp).1).isSome ∧
    (run engDemo none ([] ++ Op.setupOp "http://demo" none :: [Op.listTypesOp])).isSome ∧
    (execute_query engDemo (some gcConn) "query x" none).2.1 ≠ Except.ok noConnMsg ∧
    ((∃ m, (get_schema engDemo (some gcConn)).2.1 = Except.error m) ∨
      (∃ gc1 c, (get_schema engDemo (some gcConn)).1 = some gc1 ∧ gc1.client = some c ∧
        (get_schema engDemo (some gcConn)).2.1 = Except.ok (pyStrOptSchema c.schema))) :=
  ⟨holder_persistent.1 engDemo (some gcConn) Op.listTypesOp rfl,
   holder_persistent.2.1 engDemo none [] [Op.listTypesOp] "http://demo" none,
   holder_persistent.2.2.1 engDemo gcConn "query x" none,
   holder_persistent.2.2.2.1 engDemo gcConn⟩

end MCPAF
